import Mathlib

/-!
# Techwave-backend: M-Pesa payment reconciliation core, shallow embedding

This file embeds the payment-reconciliation subsystem of the Techwave
e-commerce backend:

* `src/services/mpesaService.ts` — the provider gateway client
  (`generateAccessToken`, `generatePassword`, `generateTimestamp`,
  `formatPhoneNumber`, `initiateSTKPush`, `querySTKPushStatus`);
* `src/controllers/mpesaController.ts` — the reconciliation controllers
  (`initiatePayment`, `mpesaCallback`, `queryPaymentStatus`).

The relational store (tables `mpesa_transactions`, `orders`, `payments`) is
modelled as lists of records; each SQL statement of the source becomes an
explicit lookup (`List.find?`) or a mapped update over the matching rows.
HTTP/network effects are modelled by passing the awaited outcome of each
outbound call as an explicit argument, together with a Boolean recording
whether the call site was reached.  JavaScript dynamic values that flow
through the callback payload are modelled by the sum type `JVal`, so that
the strict equality test `ResultCode === 0` of the source keeps its exact
semantics.  Currency amounts are rationals (`NUMERIC(12,2)` column,
JavaScript numbers compared against the `0.01` tolerance in the source).
-/

/-- Lifecycle status of a `mpesa_transactions` row
(`CHECK (status IN ('pending','completed','failed','cancelled'))`). -/
inductive TxnStatus where
  | pending
  | completed
  | failed
  | cancelled
deriving DecidableEq

/-- Status of an `orders` row, as used by this subsystem. -/
inductive OrderStatus where
  | pending
  | processing
  | shipped
  | delivered
  | cancelled
  | failed
deriving DecidableEq

/-- A dynamic JavaScript value as it appears in a provider callback payload:
`ResultCode` and the metadata `Value` fields may arrive as numbers, strings
or null.  Strict equality `===` of the source is equality of this type. -/
inductive JVal where
  | jnum (n : Int)
  | jstr (s : String)
  | jnull
deriving DecidableEq

/-- One row of `mpesa_transactions` (the transaction ledger).  Fields mirror
the columns the controllers read and write; `checkoutRequestId` and
`merchantRequestId` are `Option` because the controller inserts whatever the
gateway result object carries. -/
structure LedgerEntry where
  orderId : Nat
  checkoutRequestId : Option String
  merchantRequestId : Option String
  phoneNumber : String
  amount : ℚ
  status : TxnStatus
  mpesaReceiptNumber : Option JVal
  transactionDate : Option JVal
  resultCode : Option JVal
  resultDesc : Option String
  updatedAt : Nat
deriving DecidableEq

/-- One row of `orders`, restricted to the columns this subsystem touches. -/
structure Order where
  orderId : Nat
  totalAmount : ℚ
  status : OrderStatus
  notes : Option String
deriving DecidableEq

/-- One row of `payments`, restricted to the columns this subsystem touches. -/
structure Payment where
  paymentId : Nat
  orderId : Nat
  method : String
  isConfirmed : Bool
  mpesaCode : Option JVal
  confirmedAt : Option Nat
deriving DecidableEq

/-- The relational store visible to the reconciliation core. -/
structure DB where
  orders : List Order
  payments : List Payment
  ledger : List LedgerEntry
deriving DecidableEq

/-- JavaScript `x || d` on an optional string: the default is taken when the
value is absent (`undefined`) or the empty string (falsy). -/
def jsOr (s : Option String) (d : String) : String :=
  match s with
  | some m => if m = "" then d else m
  | none => d

/-- `SELECT * FROM mpesa_transactions WHERE checkout_request_id = $1`,
taking `rows[0]`. -/
def ledgerKeyMatches (cid : String) (e : LedgerEntry) : Bool :=
  e.checkoutRequestId == some cid

def findTransaction (db : DB) (cid : String) : Option LedgerEntry :=
  db.ledger.find? (ledgerKeyMatches cid)

/-- `SELECT ... FROM orders WHERE order_id = $1`, taking `rows[0]`. -/
def orderKeyMatches (oid : Nat) (o : Order) : Bool :=
  o.orderId == oid

def findOrder (db : DB) (oid : Nat) : Option Order :=
  db.orders.find? (orderKeyMatches oid)

/-- A SQL `UPDATE ... WHERE p` : rewrite every matching row in place. -/
def updateWhere {α : Type} (p : α → Bool) (u : α → α) (l : List α) : List α :=
  l.map fun a => if p a then u a else a

/-! ## Gateway client (`src/services/mpesaService.ts`) -/

/-- UTF-8 encoding of one character (what `Buffer.from(string)` produces,
byte by byte). -/
def utf8EncodeCharNat (c : Char) : List Nat :=
  let n := c.toNat
  if n < 0x80 then [n]
  else if n < 0x800 then [0xC0 + n / 0x40, 0x80 + n % 0x40]
  else if n < 0x10000 then
    [0xE0 + n / 0x1000, 0x80 + (n / 0x40) % 0x40, 0x80 + n % 0x40]
  else
    [0xF0 + n / 0x40000, 0x80 + (n / 0x1000) % 0x40,
     0x80 + (n / 0x40) % 0x40, 0x80 + n % 0x40]

def utf8Bytes (s : String) : List Nat :=
  (s.toList.map utf8EncodeCharNat).flatten

def base64Alphabet : List Char :=
  "ABCDEFGHIJKLMNOPQRSTUVWXYZabcdefghijklmnopqrstuvwxyz0123456789+/".toList

def base64Char (n : Nat) : Char :=
  base64Alphabet.getD n 'A'

/-- Standard base64 of a byte sequence (`Buffer.prototype.toString('base64')`). -/
def base64EncodeBytes : List Nat → List Char
  | b1 :: b2 :: b3 :: rest =>
      base64Char (b1 / 4) :: base64Char (b1 % 4 * 16 + b2 / 16) ::
      base64Char (b2 % 16 * 4 + b3 / 64) :: base64Char (b3 % 64) ::
      base64EncodeBytes rest
  | [b1, b2] =>
      [base64Char (b1 / 4), base64Char (b1 % 4 * 16 + b2 / 16),
       base64Char (b2 % 16 * 4), '=']
  | [b1] =>
      [base64Char (b1 / 4), base64Char (b1 % 4 * 16), '=', '=']
  | [] => []

def base64Encode (s : String) : String :=
  String.mk (base64EncodeBytes (utf8Bytes s))

/-- The static gateway configuration (`mpesa.config.ts`), read from the
environment in the source; abstracted here as explicit data. -/
structure MpesaConfig where
  consumerKey : String
  consumerSecret : String
  shortCode : String
  passkey : String
  transactionType : String
  callbackURL : String
  accountReference : String
deriving DecidableEq

/-- The six clock components `new Date()` exposes to `generateTimestamp`
(`getMonth()` is zero-based, as in JavaScript). -/
structure JsDate where
  year : Nat
  month : Nat
  day : Nat
  hours : Nat
  minutes : Nat
  seconds : Nat
deriving DecidableEq

/-- `String(n).padStart(2, '0')`. -/
def pad2 (n : Nat) : String :=
  let s := toString n
  if s.length < 2 then "0" ++ s else s

/-- `generateTimestamp`: `YYYYMMDDHHmmss` from the clock components. -/
def generateTimestamp (d : JsDate) : String :=
  toString d.year ++ pad2 (d.month + 1) ++ pad2 d.day ++
  pad2 d.hours ++ pad2 d.minutes ++ pad2 d.seconds

/-- `generatePassword`: `Base64(ShortCode + Passkey + Timestamp)`. -/
def generatePassword (config : MpesaConfig) (timestamp : String) : String :=
  base64Encode (config.shortCode ++ config.passkey ++ timestamp)

/-- `String.prototype.startsWith`, character by character (first argument:
the string, second: the candidate leading segment). -/
def listStartsWith : List Char → List Char → Bool
  | _, [] => true
  | [], _ :: _ => false
  | c :: cs, p :: ps => c == p && listStartsWith cs ps

/-- `formatPhoneNumber`: strip non-digits (`replace(/\D/g, '')`), then
normalize the leading part.  The `+254` branch of the source is kept even
though the preceding replace has already removed any `+`.  The string is
handled as its character list so that every step computes. -/
def formatPhoneNumber (phone : String) : String :=
  let cleaned := phone.toList.filter fun c => c.isDigit
  String.mk
    (if listStartsWith cleaned ['0'] then
      '2' :: '5' :: '4' :: cleaned.drop 1
    else if listStartsWith cleaned ['+', '2', '5', '4'] then
      cleaned.drop 1
    else if listStartsWith cleaned ['2', '5', '4'] then
      cleaned
    else if cleaned.length == 9 then
      '2' :: '5' :: '4' :: cleaned
    else
      cleaned)

/-- `Math.round` on the requested amount (half rounds up, toward +∞). -/
def jsRound (q : ℚ) : Int :=
  ⌊q + 1 / 2⌋

/-- `Math.abs` on a rational. -/
def jsAbs (q : ℚ) : ℚ :=
  if q < 0 then -q else q

/-- An error value thrown inside the service, as `initiateSTKPush`'s catch
block sees it: a plain `Error` (no `response` field), an axios error with a
provider HTTP response, or an axios transport error (no response). -/
inductive JsError where
  | plainError (message : String)
  | axiosHttp (errorMessage : Option String) (responseCode : Option String)
  | axiosTransport (message : String)
deriving DecidableEq

/-- Outcome of the OAuth `axios.get` in `generateAccessToken`. -/
inductive OauthOutcome where
  | ok (accessToken : String)
  | httpError (status : Nat) (errorDescription : Option String) (statusText : String)
  | transportError
  | setupError (message : String)
deriving DecidableEq

/-- The request body `initiateSTKPush` builds for the STK `axios.post`. -/
structure StkPayload where
  businessShortCode : String
  password : String
  timestamp : String
  transactionType : String
  amount : Int
  partyA : String
  partyB : String
  phoneNumber : String
  callBackURL : String
  accountReference : String
  transactionDesc : String
deriving DecidableEq

/-- `response.data` of a successful STK push POST. -/
structure StkPushResponseData where
  checkoutRequestID : Option String
  merchantRequestID : Option String
  responseCode : Option String
  responseDescription : Option String
  customerMessage : Option String
deriving DecidableEq

/-- Outcome of the STK push `axios.post`. -/
inductive StkPostOutcome where
  | ok (data : StkPushResponseData)
  | httpError (errorMessage : Option String) (responseCode : Option String)
  | transportError (message : String)
deriving DecidableEq

/-- The body `querySTKPushStatus` posts to the status-query endpoint. -/
structure StkQueryPayload where
  businessShortCode : String
  password : String
  timestamp : String
  checkoutRequestID : String
deriving DecidableEq

/-- `response.data` of a successful status-query POST. -/
structure StkQueryResponseData where
  resultCode : Option String
  resultDesc : Option String
deriving DecidableEq

/-- Outcome of the status-query `axios.post`. -/
inductive StkQueryOutcome where
  | ok (data : StkQueryResponseData)
  | httpError (errorMessage : Option String)
  | transportError (message : String)
deriving DecidableEq

/-- The environment of one service call: configuration, the clock, and the
outcome each outbound HTTP request would produce. -/
structure MpesaEnv where
  config : MpesaConfig
  clock : JsDate
  oauth : OauthOutcome
  stkPush : StkPayload → StkPostOutcome
  stkQuery : StkQueryPayload → StkQueryOutcome

/-- `generateAccessToken`.  Every failure is re-thrown by the source as a
plain `Error` (so downstream catch blocks see no `response` field); the
missing-credentials throw happens inside the `try`, so it too reaches the
catch and picks up the `Failed to generate...` prefix of the final branch. -/
def generateAccessToken (env : MpesaEnv) : Except JsError String :=
  if env.config.consumerKey = "" ∨ env.config.consumerSecret = "" then
    .error (.plainError ("Failed to generate M-Pesa access token: " ++
      "M-Pesa credentials not configured. Check MPESA_CONSUMER_KEY and MPESA_CONSUMER_SECRET in environment variables."))
  else
    match env.oauth with
    | .ok accessToken => .ok accessToken
    | .httpError status errorDescription statusText =>
        if status == 400 then
          .error (.plainError "Invalid M-Pesa credentials. Please check your Consumer Key and Consumer Secret.")
        else if status == 401 then
          .error (.plainError "M-Pesa authentication failed. Verify your credentials are for the correct environment (sandbox/production).")
        else
          .error (.plainError ("M-Pesa OAuth failed: " ++ jsOr errorDescription statusText))
    | .transportError =>
        .error (.plainError "Unable to connect to M-Pesa API. Check your internet connection.")
    | .setupError message =>
        .error (.plainError ("Failed to generate M-Pesa access token: " ++ message))

/-- The tagged result object `initiateSTKPush` resolves with.  The success
object of the source carries the five provider fields and no `error`; the
catch-block object carries `success: false`, `error` and `responseCode`,
leaving the other fields `undefined`. -/
structure STKPushResult where
  success : Bool
  checkoutRequestID : Option String
  merchantRequestID : Option String
  responseCode : Option String
  responseDescription : Option String
  customerMessage : Option String
  error : Option String
deriving DecidableEq

/-- The body of `initiateSTKPush`'s `try` block: acquire a token, build the
payload, POST it; axios failures become thrown errors. -/
def initiateSTKPushAttempt (phoneNumber : String) (amount : ℚ) (orderId : String)
    (accountReference : Option String) (env : MpesaEnv) :
    Except JsError STKPushResult := do
  let _accessToken ← generateAccessToken env
  let formattedPhone := formatPhoneNumber phoneNumber
  let timestamp := generateTimestamp env.clock
  let password := generatePassword env.config timestamp
  let payload : StkPayload :=
    { businessShortCode := env.config.shortCode
      password := password
      timestamp := timestamp
      transactionType := env.config.transactionType
      amount := jsRound amount
      partyA := formattedPhone
      partyB := env.config.shortCode
      phoneNumber := formattedPhone
      callBackURL := env.config.callbackURL
      accountReference := jsOr accountReference env.config.accountReference
      transactionDesc := "Payment for Order " ++ orderId }
  match env.stkPush payload with
  | .ok data =>
      pure
        { success := true
          checkoutRequestID := data.checkoutRequestID
          merchantRequestID := data.merchantRequestID
          responseCode := data.responseCode
          responseDescription := data.responseDescription
          customerMessage := data.customerMessage
          error := none }
  | .httpError errorMessage responseCode =>
      throw (.axiosHttp errorMessage responseCode)
  | .transportError message =>
      throw (.axiosTransport message)

/-- `initiateSTKPush`'s catch block:
`error.response?.data?.errorMessage || 'Failed to initiate payment'` and
`error.response?.data?.ResponseCode`.  Only an axios error with a provider
HTTP response has a `response` field. -/
def stkCatchResult (e : JsError) : STKPushResult :=
  { success := false
    checkoutRequestID := none
    merchantRequestID := none
    responseCode :=
      match e with
      | .axiosHttp _ responseCode => responseCode
      | _ => none
    responseDescription := none
    customerMessage := none
    error :=
      match e with
      | .axiosHttp errorMessage _ => some (jsOr errorMessage "Failed to initiate payment")
      | _ => some "Failed to initiate payment" }

/-- `initiateSTKPush`: the whole body sits inside one `try`/`catch`, and the
catch returns the tagged failure object — the promise never rejects. -/
def initiateSTKPush (phoneNumber : String) (amount : ℚ) (orderId : String)
    (accountReference : Option String) (env : MpesaEnv) :
    Except JsError STKPushResult :=
  match initiateSTKPushAttempt phoneNumber amount orderId accountReference env with
  | .ok r => .ok r
  | .error e => .ok (stkCatchResult e)

/-- The tagged result object `querySTKPushStatus` resolves with. -/
structure QuerySTKResult where
  success : Bool
  resultCode : Option String
  resultDesc : Option String
  data : Option StkQueryResponseData
  error : Option String
deriving DecidableEq

/-- The body of `querySTKPushStatus`'s `try` block. -/
def querySTKPushStatusAttempt (checkoutRequestID : String) (env : MpesaEnv) :
    Except JsError QuerySTKResult := do
  let _accessToken ← generateAccessToken env
  let timestamp := generateTimestamp env.clock
  let password := generatePassword env.config timestamp
  let payload : StkQueryPayload :=
    { businessShortCode := env.config.shortCode
      password := password
      timestamp := timestamp
      checkoutRequestID := checkoutRequestID }
  match env.stkQuery payload with
  | .ok data =>
      pure
        { success := true
          resultCode := data.resultCode
          resultDesc := data.resultDesc
          data := some data
          error := none }
  | .httpError errorMessage =>
      throw (.axiosHttp errorMessage none)
  | .transportError message =>
      throw (.axiosTransport message)

/-- `querySTKPushStatus`: same catch-everything shape as `initiateSTKPush`. -/
def querySTKPushStatus (checkoutRequestID : String) (env : MpesaEnv) :
    Except JsError QuerySTKResult :=
  match querySTKPushStatusAttempt checkoutRequestID env with
  | .ok r => .ok r
  | .error e =>
      .ok
        { success := false
          resultCode := none
          resultDesc := none
          data := none
          error :=
            match e with
            | .axiosHttp errorMessage _ => some (jsOr errorMessage "Failed to query payment status")
            | _ => some "Failed to query payment status" }

/-! ## Reconciliation controllers (`src/controllers/mpesaController.ts`)

Each controller is embedded as a pure function of the store and the awaited
values of its outbound calls.  The gateway result consumed by
`initiatePayment` is passed as an argument (the promise returned by
`initiateSTKPush` never rejects, see `initiateSTKPush` above), together with
a Boolean output recording whether execution reached the gateway call.
`NOW()` is the explicit `now` argument. -/

/-- The JSON response of `initiatePayment`, one constructor per `res.json`
call site of the source. -/
inductive InitiateResp where
  | badRequest (message : String)
  | orderNotFound
  | gatewayFailure (message : String) (code : Option String)
  | ok (checkoutRequestID merchantRequestID customerMessage : Option String)
deriving DecidableEq

/-- Result of one `initiatePayment` request: response, resulting store, and
whether the `initiateSTKPush` call site was reached. -/
structure InitiateOutcome where
  resp : InitiateResp
  db : DB
  gatewayCalled : Bool
deriving DecidableEq

/-- The test of `/^(\+?254|0)[17]\d{8}$/` on the tail after the prefix
alternative: one character in `[17]`, then exactly eight digits. -/
def phoneTailOk : List Char → Bool
  | c :: ds => (c == '1' || c == '7') && ds.length == 8 && ds.all (fun d => d.isDigit)
  | [] => false

/-- `phoneRegex.test(phoneNumber)` for `/^(\+?254|0)[17]\d{8}$/`: the prefix
is `+254`, `254`, or `0` (the three alternatives are mutually exclusive on
their first character). -/
def phoneRegexTest (s : String) : Bool :=
  match s.toList with
  | '+' :: '2' :: '5' :: '4' :: rest => phoneTailOk rest
  | '2' :: '5' :: '4' :: rest => phoneTailOk rest
  | '0' :: rest => phoneTailOk rest
  | _ => false

/-- `initiatePayment` (`POST /api/mpesa/stkpush`): validate, look up the
order, gate on the amount, call the gateway, and insert the `pending`
ledger row only on gateway success. -/
def initiatePayment (db : DB) (phoneNumber : String) (amount : ℚ) (orderId : Nat)
    (gw : STKPushResult) (now : Nat) : InitiateOutcome :=
  if phoneNumber = "" ∨ amount = 0 ∨ orderId = 0 then
    ⟨.badRequest "Phone number, amount, and order ID are required", db, false⟩
  else if phoneRegexTest phoneNumber = false then
    ⟨.badRequest "Invalid phone number format. Use 254XXXXXXXXX or 07XXXXXXXX", db, false⟩
  else if amount < 1 then
    ⟨.badRequest "Amount must be at least KSh 1", db, false⟩
  else
    match findOrder db orderId with
    | none => ⟨.orderNotFound, db, false⟩
    | some order =>
      if jsAbs (order.totalAmount - amount) > 1 / 100 then
        ⟨.badRequest "Payment amount does not match order total", db, false⟩
      else if gw.success = false then
        ⟨.gatewayFailure (jsOr gw.error "Failed to initiate payment") gw.responseCode, db, true⟩
      else
        let entry : LedgerEntry :=
          { orderId := orderId
            checkoutRequestId := gw.checkoutRequestID
            merchantRequestId := gw.merchantRequestID
            phoneNumber := phoneNumber
            amount := amount
            status := .pending
            mpesaReceiptNumber := none
            transactionDate := none
            resultCode := none
            resultDesc := none
            updatedAt := now }
        ⟨.ok gw.checkoutRequestID gw.merchantRequestID gw.customerMessage,
          { db with ledger := db.ledger ++ [entry] }, true⟩

/-- One `Item` of `CallbackMetadata`. -/
structure MetaItem where
  name : String
  value : JVal
deriving DecidableEq

/-- The `stkCallback` object of a callback body. -/
structure StkCallback where
  merchantRequestID : String
  checkoutRequestID : String
  resultCode : JVal
  resultDesc : String
  callbackMetadata : Option (List MetaItem)
deriving DecidableEq

/-- `metadata.find(item => item.Name === key)?.Value`. -/
def metaFind (items : List MetaItem) (key : String) : Option JVal :=
  (items.find? fun item => item.name == key).map (·.value)

/-- The JSON response of `mpesaCallback`: HTTP status, the `ResultCode`
field when the body carries one, and the message/description text. -/
structure CallbackResp where
  status : Nat
  resultCode : Option Int
  message : String
deriving DecidableEq

/-- Success-branch write 1: `UPDATE mpesa_transactions SET status='completed',
mpesa_receipt_number, transaction_date, result_code, result_desc,
updated_at = NOW() WHERE checkout_request_id = $6`. -/
def completeLedgerWrite (cid : String) (receipt txnDate : Option JVal)
    (rc : JVal) (rd : String) (now : Nat) (db : DB) : DB :=
  { db with ledger := (updateWhere (ledgerKeyMatches cid)
      (fun e =>
        { e with
            status := .completed
            mpesaReceiptNumber := receipt
            transactionDate := txnDate
            resultCode := some rc
            resultDesc := some rd
            updatedAt := now }) db.ledger) }

/-- Success-branch write 2: `UPDATE payments SET is_confirmed = true,
mpesa_code, confirmed_at = NOW() WHERE order_id = $2 AND method = 'mpesa'`. -/
def confirmPaymentWrite (oid : Nat) (receipt : Option JVal) (now : Nat) (db : DB) : DB :=
  { db with payments := (updateWhere (fun p => p.orderId == oid && p.method == "mpesa")
      (fun p =>
        { p with
            isConfirmed := true
            mpesaCode := receipt
            confirmedAt := some now }) db.payments) }

/-- Success-branch write 3: `UPDATE orders SET status = 'processing'
WHERE order_id = $1`. -/
def processOrderWrite (oid : Nat) (db : DB) : DB :=
  { db with orders := (updateWhere (orderKeyMatches oid)
      (fun o => { o with status := .processing }) db.orders) }

/-- The three success-branch statements, in source order.  Each
`await pool.query` is its own autocommitted statement — the source opens no
transaction around them. -/
def successWrites (cid : String) (oid : Nat) (receipt txnDate : Option JVal)
    (rc : JVal) (rd : String) (now : Nat) : List (DB → DB) :=
  [completeLedgerWrite cid receipt txnDate rc rd now,
   confirmPaymentWrite oid receipt now,
   processOrderWrite oid]

def applyWrites (ws : List (DB → DB)) (db : DB) : DB :=
  ws.foldl (fun d w => w d) db

/-- Failure-branch write 1: `UPDATE mpesa_transactions SET status='failed',
result_code, result_desc, updated_at = NOW() WHERE checkout_request_id = $4`. -/
def failLedgerWrite (cid : String) (rc : JVal) (rd : String) (now : Nat) (db : DB) : DB :=
  { db with ledger := (updateWhere (ledgerKeyMatches cid)
      (fun e =>
        { e with
            status := .failed
            resultCode := some rc
            resultDesc := some rd
            updatedAt := now }) db.ledger) }

/-- Failure-branch write 2: `UPDATE orders SET status = 'failed',
notes = CONCAT(COALESCE(notes, ''), ' | Payment failed: ', $1)
WHERE order_id = $2`. -/
def failOrderWrite (oid : Nat) (rd : String) (db : DB) : DB :=
  { db with orders := (updateWhere (orderKeyMatches oid)
      (fun o =>
        { o with
            status := .failed
            notes := some ((o.notes.getD "") ++ " | Payment failed: " ++ rd) }) db.orders) }

/-- `mpesaCallback` (`POST /api/mpesa/callback`): validate the body shape,
look up the ledger row by `CheckoutRequestID` (404 when absent), then branch
on `ResultCode === 0`.  The amount and phone number extracted from the
metadata in the source are only logged, so they are not re-extracted here;
the receipt and transaction date are stored.  There is no idempotency check
on `transaction.status` and no `BEGIN`/`COMMIT` in the source — the writes
run as the plain statement sequence `successWrites` / the two failure
writes. -/
def mpesaCallback (db : DB) (body : Option StkCallback) (now : Nat) :
    CallbackResp × DB :=
  match body with
  | none => (⟨400, none, "Invalid callback data"⟩, db)
  | some cb =>
    match findTransaction db cb.checkoutRequestID with
    | none => (⟨404, none, "Transaction not found"⟩, db)
    | some transaction =>
      if cb.resultCode = JVal.jnum 0 then
        let metadata := cb.callbackMetadata.getD []
        let mpesaReceiptNumber := metaFind metadata "MpesaReceiptNumber"
        let transactionDate := metaFind metadata "TransactionDate"
        (⟨200, some 0, "Success"⟩,
          applyWrites
            (successWrites cb.checkoutRequestID transaction.orderId
              mpesaReceiptNumber transactionDate cb.resultCode cb.resultDesc now) db)
      else
        (⟨200, some 0, "Callback received"⟩,
          failOrderWrite transaction.orderId cb.resultDesc
            (failLedgerWrite cb.checkoutRequestID cb.resultCode cb.resultDesc now db))

/-- The store state when the success branch of `mpesaCallback` stops after
its first `k` statements (statement `k+1` raised): because each statement
autocommits, the first `k` remain applied. -/
def mpesaCallbackSuccessUpTo (db : DB) (cb : StkCallback) (now : Nat) (k : Nat) : DB :=
  match findTransaction db cb.checkoutRequestID with
  | none => db
  | some transaction =>
      applyWrites
        ((successWrites cb.checkoutRequestID transaction.orderId
          (metaFind (cb.callbackMetadata.getD []) "MpesaReceiptNumber")
          (metaFind (cb.callbackMetadata.getD []) "TransactionDate")
          cb.resultCode cb.resultDesc now).take k) db

/-- The JSON response of `queryPaymentStatus`, one constructor per
`res.json` call site. -/
inductive QueryResp where
  | badRequest (message : String)
  | notFound (message : String)
  | cached (status : TxnStatus) (resultCode : Option JVal)
      (resultDesc : Option String) (mpesaReceiptNumber : Option JVal)
  | live (status : String) (resultCode : Option String)
      (resultDesc : Option String) (data : Option StkQueryResponseData)
deriving DecidableEq

/-- Result of one `queryPaymentStatus` request: response, resulting store,
and whether the `querySTKPushStatus` call site was reached. -/
structure QueryOutcome where
  resp : QueryResp
  db : DB
  gatewayCalled : Bool
deriving DecidableEq

/-- `queryPaymentStatus` (`POST /api/mpesa/query`): return the cached ledger
result when the entry is terminal, otherwise surface the gateway's status
query result.  The handler contains no write statements. -/
def queryPaymentStatus (db : DB) (checkoutRequestID : String)
    (qres : QuerySTKResult) : QueryOutcome :=
  if checkoutRequestID = "" then
    ⟨.badRequest "Checkout Request ID is required", db, false⟩
  else
    match findTransaction db checkoutRequestID with
    | none => ⟨.notFound "Transaction not found", db, false⟩
    | some txn =>
      if txn.status ≠ .pending then
        ⟨.cached txn.status txn.resultCode txn.resultDesc txn.mpesaReceiptNumber, db, false⟩
      else if qres.success then
        ⟨.live (if qres.resultCode == some "0" then "completed" else "pending")
          qres.resultCode qres.resultDesc qres.data, db, true⟩
      else
        ⟨.badRequest (jsOr qres.error "Failed to query payment status"), db, true⟩

/-! ## Concrete fixtures (the spec's happy-path scenario: order 42, total
1000, one unconfirmed `mpesa` payment row, one pending ledger entry
`ws_1`) -/

def testConfig : MpesaConfig :=
  { consumerKey := "ck"
    consumerSecret := "cs"
    shortCode := "174379"
    passkey := "pk"
    transactionType := "CustomerPayBillOnline"
    callbackURL := "https://example.test/mpesa/callback"
    accountReference := "TechWave" }

def testClock : JsDate :=
  { year := 2024
    month := 9
    day := 1
    hours := 12
    minutes := 0
    seconds := 0 }

/-- An environment in which the STK push POST times out: the OAuth call
succeeds, the push raises an axios transport error (no HTTP response). -/
def envTimeout : MpesaEnv :=
  { config := testConfig
    clock := testClock
    oauth := .ok "token"
    stkPush := fun _ => .transportError "timeout of 30000ms exceeded"
    stkQuery := fun _ => .transportError "timeout of 30000ms exceeded" }

def order42 : Order :=
  { orderId := 42
    totalAmount := 1000
    status := .pending
    notes := some "leave at the gate" }

def payment7 : Payment :=
  { paymentId := 7
    orderId := 42
    method := "mpesa"
    isConfirmed := false
    mpesaCode := none
    confirmedAt := none }

def ledgerWs1 : LedgerEntry :=
  { orderId := 42
    checkoutRequestId := some "ws_1"
    merchantRequestId := some "m_1"
    phoneNumber := "254712345678"
    amount := 1000
    status := .pending
    mpesaReceiptNumber := none
    transactionDate := none
    resultCode := none
    resultDesc := none
    updatedAt := 0 }

def dbHappy : DB :=
  { orders := [order42]
    payments := [payment7]
    ledger := [ledgerWs1] }

def cbSuccess : StkCallback :=
  { merchantRequestID := "m_1"
    checkoutRequestID := "ws_1"
    resultCode := .jnum 0
    resultDesc := "The service request is processed successfully."
    callbackMetadata := some
      [{ name := "Amount", value := .jnum 1000 },
       { name := "MpesaReceiptNumber", value := .jstr "ABC123" },
       { name := "TransactionDate", value := .jnum 20241001120000 },
       { name := "PhoneNumber", value := .jnum 254712345678 }] }

def cbCancel : StkCallback :=
  { merchantRequestID := "m_1"
    checkoutRequestID := "ws_1"
    resultCode := .jnum 1032
    resultDesc := "Request cancelled by user"
    callbackMetadata := none }

/-- A callback whose `ResultCode` is the string `"0"` rather than the
number `0`. -/
def cbStringZero : StkCallback :=
  { merchantRequestID := "m_1"
    checkoutRequestID := "ws_1"
    resultCode := .jstr "0"
    resultDesc := "The service request is processed successfully."
    callbackMetadata := some
      [{ name := "MpesaReceiptNumber", value := .jstr "ABC123" }] }

/-- A callback referencing an identifier this store never issued. -/
def cbUnknown : StkCallback :=
  { merchantRequestID := "m_9"
    checkoutRequestID := "ws_unknown"
    resultCode := .jnum 0
    resultDesc := "The service request is processed successfully."
    callbackMetadata := none }

/-- Store state right after the happy-path success callback was applied. -/
def dbAfterSuccess : DB :=
  (mpesaCallback dbHappy (some cbSuccess) 10).2

/-- Store state after a duplicate (cancellation) callback for the same
checkout request identifier hits the already-terminal entry. -/
def dbAfterDuplicate : DB :=
  (mpesaCallback dbAfterSuccess (some cbCancel) 11).2

/-- The store after the success branch commits only its first statement
(fault injected on the second of the three writes). -/
def dbCrashAfterFirstWrite : DB :=
  mpesaCallbackSuccessUpTo dbHappy cbSuccess 10 1

/-- The `ws_1` ledger row as the happy-path success callback leaves it. -/
def ws1Completed : LedgerEntry :=
  { ledgerWs1 with
      status := .completed
      mpesaReceiptNumber := some (.jstr "ABC123")
      transactionDate := some (.jnum 20241001120000)
      resultCode := some (.jnum 0)
      resultDesc := some "The service request is processed successfully."
      updatedAt := 10 }

/-- A gateway failure result (provider rejection already converted to the
tagged value by `initiateSTKPush`). -/
def gwFail : STKPushResult :=
  { success := false
    checkoutRequestID := none
    merchantRequestID := none
    responseCode := some "1"
    responseDescription := none
    customerMessage := none
    error := some "The initiator information is invalid." }

/-- A gateway success result carrying the provider identifiers. -/
def gwOk : STKPushResult :=
  { success := true
    checkoutRequestID := some "ws_2"
    merchantRequestID := some "m_2"
    responseCode := some "0"
    responseDescription := some "Success. Request accepted for processing"
    customerMessage := some "Success. Request accepted for processing"
    error := none }

/-- A successful status-query result. -/
def qresOk : QuerySTKResult :=
  { success := true
    resultCode := some "0"
    resultDesc := some "The service request is processed successfully."
    data := some { resultCode := some "0"
                   resultDesc := some "The service request is processed successfully." }
    error := none }

/-! ## Helper lemmas -/

/-- `find?` after a keyed in-place update: when the update preserves the key
predicate, the first match of the updated list is the updated first match of
the original list. -/
theorem find?_updateWhere {α : Type} (p : α → Bool) (u : α → α) (l : List α)
    (hu : ∀ a, p (u a) = p a) :
    (updateWhere p u l).find? p = (l.find? p).map u := by
  induction l with
  | nil => rfl
  | cons a l ih =>
    simp only [updateWhere, List.map_cons] at ih ⊢
    by_cases h : p a
    · rw [if_pos h, List.find?_cons_of_pos _ (by rw [hu]; exact h),
        List.find?_cons_of_pos _ h]
      rfl
    · rw [if_neg h, List.find?_cons_of_neg _ h, List.find?_cons_of_neg _ h]
      exact ih

/-- Shape of `mpesaCallback` when the entry is found and the result code is
not the number zero: the response and both failure-branch writes. -/
theorem mpesaCallback_found_failure (db : DB) (cb : StkCallback) (now : Nat)
    (entry : LedgerEntry)
    (hfind : findTransaction db cb.checkoutRequestID = some entry)
    (hcode : cb.resultCode ≠ JVal.jnum 0) :
    mpesaCallback db (some cb) now =
      (⟨200, some 0, "Callback received"⟩,
        failOrderWrite entry.orderId cb.resultDesc
          (failLedgerWrite cb.checkoutRequestID cb.resultCode cb.resultDesc now db)) := by
  simp only [mpesaCallback, hfind, if_neg hcode]

/-- Shape of `mpesaCallback` when the entry is found and the result code is
the number zero: the response and the three success-branch writes. -/
theorem mpesaCallback_found_success (db : DB) (cb : StkCallback) (now : Nat)
    (entry : LedgerEntry)
    (hfind : findTransaction db cb.checkoutRequestID = some entry)
    (hcode : cb.resultCode = JVal.jnum 0) :
    mpesaCallback db (some cb) now =
      (⟨200, some 0, "Success"⟩,
        applyWrites
          (successWrites cb.checkoutRequestID entry.orderId
            (metaFind (cb.callbackMetadata.getD []) "MpesaReceiptNumber")
            (metaFind (cb.callbackMetadata.getD []) "TransactionDate")
            cb.resultCode cb.resultDesc now) db) := by
  simp only [mpesaCallback, hfind, if_pos hcode]

/-! ## Claim theorems -/

/-- C9. Phone normalization maps the local-leading-zero form
`"0712345678"`, the international-plus form `"+254712345678"`, and the
already-normalized form `"254712345678"` all to `"254712345678"`. -/
theorem formatPhoneNumber_normalizes :
    formatPhoneNumber "0712345678" = "254712345678" ∧
    formatPhoneNumber "+254712345678" = "254712345678" ∧
    formatPhoneNumber "254712345678" = "254712345678" := by
  decide

/-- C3, counterexample.  A callback whose checkout-request identifier has
no ledger entry is answered with HTTP 404 `Transaction not found` — not the
standard `ResultCode: 0` success acknowledgment the claim asserts.  (The
zero-writes half of the claim does hold: the store is returned unchanged.) -/
theorem mpesaCallback_unknown_id_not_acknowledged :
    mpesaCallback dbHappy (some cbUnknown) 5 =
      (⟨404, none, "Transaction not found"⟩, dbHappy) ∧
    (mpesaCallback dbHappy (some cbUnknown) 5).1.status ≠ 200 := by
  decide

/-- C3, amended.  For every callback whose checkout-request identifier has
no matching ledger entry, `mpesaCallback` returns the 404
`Transaction not found` error response (not the success acknowledgment)
and performs zero writes: the store is unchanged. -/
theorem mpesaCallback_unknown_no_writes (db : DB) (cb : StkCallback) (now : Nat)
    (habsent : findTransaction db cb.checkoutRequestID = none) :
    mpesaCallback db (some cb) now = (⟨404, none, "Transaction not found"⟩, db) := by
  simp only [mpesaCallback, habsent]

/-- Witness for `mpesaCallback_unknown_no_writes` at the concrete store
`dbHappy` and callback `cbUnknown`. -/
theorem mpesaCallback_unknown_no_writes_witness :
    mpesaCallback dbHappy (some cbUnknown) 5 =
      (⟨404, none, "Transaction not found"⟩, dbHappy) :=
  mpesaCallback_unknown_no_writes dbHappy cbUnknown 5 (by decide)

/-- C1. The source has no idempotency guard: after the happy-path success
callback leaves `ws_1` `completed` and order 42 `processing`, a second
callback for the same identifier with a cancellation code re-applies the
failure writes — the ledger entry is overwritten to `failed`, the order to
`failed`, and the store differs from its state after the first callback.
The claim (a second callback on a terminal entry performs no writes) is
therefore false of the code. -/
theorem mpesaCallback_reapplies_terminal :
    (findTransaction dbAfterSuccess "ws_1").map LedgerEntry.status =
      some TxnStatus.completed ∧
    (findOrder dbAfterSuccess 42).map Order.status = some OrderStatus.processing ∧
    (findTransaction dbAfterDuplicate "ws_1").map LedgerEntry.status =
      some TxnStatus.failed ∧
    (findOrder dbAfterDuplicate 42).map Order.status = some OrderStatus.failed ∧
    dbAfterDuplicate ≠ dbAfterSuccess := by
  decide

/-- C2. The three success-branch statements are separate autocommitted
queries (no `BEGIN`/`COMMIT` in the source): when the second statement
fails after the first committed, the ledger entry is already `completed`
while the payment row is unconfirmed and the order is still `pending` — a
partial commit, contradicting the claim that a failure partway leaves all
three stores unchanged. -/
theorem mpesaCallback_not_atomic :
    (findTransaction dbCrashAfterFirstWrite "ws_1").map LedgerEntry.status =
      some TxnStatus.completed ∧
    dbCrashAfterFirstWrite.payments = dbHappy.payments ∧
    (findOrder dbCrashAfterFirstWrite 42).map Order.status =
      some OrderStatus.pending ∧
    dbCrashAfterFirstWrite ≠ dbHappy := by
  decide

/-- C6, counterexample.  On a transport-level failure (the STK push POST
times out, an axios error with no HTTP response), `initiateSTKPush` does
not propagate an exception: its catch-all converts the error into the
tagged failure value with the generic message and no provider code.  This
refutes the claim that transport-level failures are the case in which an
exception propagates. -/
theorem initiateSTKPush_timeout_returns_value :
    initiateSTKPush "0712345678" 1000 "42" none envTimeout =
      Except.ok
        { success := false
          checkoutRequestID := none
          merchantRequestID := none
          responseCode := none
          responseDescription := none
          customerMessage := none
          error := some "Failed to initiate payment" } := by
  rfl

/-- C6, amended.  `initiateSTKPush` never throws at all: provider-level
rejections and transport-level failures alike are caught and returned as
the tagged failure value (the promise always resolves). -/
theorem initiateSTKPush_never_throws (phoneNumber : String) (amount : ℚ)
    (orderId : String) (accountReference : Option String) (env : MpesaEnv) :
    ∃ r, initiateSTKPush phoneNumber amount orderId accountReference env =
      Except.ok r := by
  unfold initiateSTKPush
  cases initiateSTKPushAttempt phoneNumber amount orderId accountReference env with
  | ok r => exact ⟨r, rfl⟩
  | error e => exact ⟨stkCatchResult e, rfl⟩

/-- Ledger lookup after the two failure-branch writes: the order write does
not touch the ledger, and the ledger write preserves the key. -/
theorem findTransaction_failWrites (db : DB) (cid : String) (rc : JVal)
    (rd : String) (now : Nat) (oid : Nat) :
    findTransaction (failOrderWrite oid rd (failLedgerWrite cid rc rd now db)) cid =
      (findTransaction db cid).map
        (fun e => { e with status := .failed, resultCode := some rc, resultDesc := some rd, updatedAt := now }) := by
  simp only [findTransaction, failOrderWrite, failLedgerWrite]
  exact find?_updateWhere _ _ _ (fun a => rfl)

/-- Order lookup after the two failure-branch writes: the ledger write does
not touch the orders, and the order write preserves the key. -/
theorem findOrder_failWrites (db : DB) (cid : String) (rc : JVal)
    (rd : String) (now : Nat) (oid : Nat) :
    findOrder (failOrderWrite oid rd (failLedgerWrite cid rc rd now db)) oid =
      (findOrder db oid).map
        (fun o => { o with status := .failed, notes := some ((o.notes.getD "") ++ " | Payment failed: " ++ rd) }) := by
  simp only [findOrder, failOrderWrite, failLedgerWrite]
  exact find?_updateWhere _ _ _ (fun a => rfl)

/-- C4. For an existing order, `initiatePayment` reaches the gateway call
exactly when the requested amount matches the order total within the 0.01
tolerance; on a mismatch it returns the amount-mismatch error, makes no
gateway call, and leaves the store (hence the ledger) unchanged.  The
request is assumed to have passed the field/format validations that
precede the order lookup in the source. -/
theorem initiatePayment_amount_gate
    (db : DB) (phoneNumber : String) (amount : ℚ) (orderId : Nat)
    (gw : STKPushResult) (now : Nat) (order : Order)
    (hfind : findOrder db orderId = some order)
    (hreq : ¬ (phoneNumber = "" ∨ amount = 0 ∨ orderId = 0))
    (hphone : phoneRegexTest phoneNumber = true)
    (hmin : ¬ amount < 1) :
    ((initiatePayment db phoneNumber amount orderId gw now).gatewayCalled = true ↔
      ¬ jsAbs (order.totalAmount - amount) > 1 / 100) ∧
    (jsAbs (order.totalAmount - amount) > 1 / 100 →
      initiatePayment db phoneNumber amount orderId gw now =
        ⟨.badRequest "Payment amount does not match order total", db, false⟩) := by
  have hp : ¬ phoneRegexTest phoneNumber = false := by simp [hphone]
  simp only [initiatePayment, hfind]
  rw [if_neg hreq, if_neg hp, if_neg hmin]
  by_cases hm : jsAbs (order.totalAmount - amount) > 1 / 100
  · rw [if_pos hm]
    exact ⟨iff_of_false (by simp) (not_not_intro hm), fun _ => rfl⟩
  · rw [if_neg hm]
    refine ⟨?_, fun h => absurd h hm⟩
    by_cases hgw : gw.success = false
    · rw [if_pos hgw]
      exact iff_of_true rfl hm
    · rw [if_neg hgw]
      exact iff_of_true rfl hm

/-- Witness for `initiatePayment_amount_gate`: order 42 has total 1000, the
request asks for 500 — the amount-mismatch error is returned with no
gateway call and no store change. -/
theorem initiatePayment_amount_gate_witness :
    initiatePayment dbHappy "0712345678" 500 42 gwOk 3 =
      ⟨.badRequest "Payment amount does not match order total", dbHappy, false⟩ :=
  (initiatePayment_amount_gate dbHappy "0712345678" 500 42 gwOk 3 order42
    (by decide) (by decide) (by decide) (by decide)).2
    (by
      have h : order42.totalAmount - (500 : ℚ) = 500 := by norm_num [order42]
      rw [h]
      unfold jsAbs
      rw [if_neg (by norm_num : ¬ (500 : ℚ) < 0)]
      norm_num)

/-- C5. Past the amount gate, `initiatePayment` inserts a ledger row only
when the gateway result is tagged successful: on failure it returns the
gateway error and leaves the store unchanged; on success it appends exactly
one `pending` entry keyed by the returned checkout-request identifier. -/
theorem initiatePayment_gateway_persistence
    (db : DB) (phoneNumber : String) (amount : ℚ) (orderId : Nat)
    (gw : STKPushResult) (now : Nat) (order : Order)
    (hfind : findOrder db orderId = some order)
    (hreq : ¬ (phoneNumber = "" ∨ amount = 0 ∨ orderId = 0))
    (hphone : phoneRegexTest phoneNumber = true)
    (hmin : ¬ amount < 1)
    (hamount : ¬ jsAbs (order.totalAmount - amount) > 1 / 100) :
    (gw.success = false →
      initiatePayment db phoneNumber amount orderId gw now =
        ⟨.gatewayFailure (jsOr gw.error "Failed to initiate payment") gw.responseCode,
          db, true⟩) ∧
    (gw.success = true →
      initiatePayment db phoneNumber amount orderId gw now =
        ⟨.ok gw.checkoutRequestID gw.merchantRequestID gw.customerMessage,
          { db with ledger := db.ledger ++
              [⟨orderId, gw.checkoutRequestID, gw.merchantRequestID, phoneNumber,
                amount, .pending, none, none, none, none, now⟩] },
          true⟩) := by
  have hp : ¬ phoneRegexTest phoneNumber = false := by simp [hphone]
  simp only [initiatePayment, hfind]
  rw [if_neg hreq, if_neg hp, if_neg hmin, if_neg hamount]
  constructor
  · intro hgw
    rw [if_pos hgw]
  · intro hgw
    rw [if_neg (by simp [hgw])]

/-- Witness for `initiatePayment_gateway_persistence`: with matching amount
1000, a failed gateway result leaves the store unchanged and a successful
one appends the pending `ws_2` entry. -/
theorem initiatePayment_gateway_persistence_witness :
    initiatePayment dbHappy "0712345678" 1000 42 gwFail 3 =
      ⟨.gatewayFailure (jsOr gwFail.error "Failed to initiate payment") gwFail.responseCode,
        dbHappy, true⟩ ∧
    initiatePayment dbHappy "0712345678" 1000 42 gwOk 3 =
      ⟨.ok gwOk.checkoutRequestID gwOk.merchantRequestID gwOk.customerMessage,
        { dbHappy with ledger := dbHappy.ledger ++
            [⟨42, gwOk.checkoutRequestID, gwOk.merchantRequestID, "0712345678",
              1000, .pending, none, none, none, none, 3⟩] },
        true⟩ := by
  have hzero : ¬ jsAbs (order42.totalAmount - (1000 : ℚ)) > 1 / 100 := by
    have h : order42.totalAmount - (1000 : ℚ) = 0 := by norm_num [order42]
    rw [h]
    unfold jsAbs
    rw [if_neg (by norm_num : ¬ (0 : ℚ) < 0)]
    norm_num
  exact
    ⟨(initiatePayment_gateway_persistence dbHappy "0712345678" 1000 42 gwFail 3 order42
        (by decide) (by decide) (by decide) (by decide) hzero).1 rfl,
     (initiatePayment_gateway_persistence dbHappy "0712345678" 1000 42 gwOk 3 order42
        (by decide) (by decide) (by decide) (by decide) hzero).2 rfl⟩

/-- C7. For a pending ledger entry, a failure callback marks the entry
`failed` with the provider's code and description, marks the order `failed`,
and appends the failure description to the order's notes while keeping the
prior notes as a leading segment; the payments table is untouched. -/
theorem mpesaCallback_failure_updates
    (db : DB) (cb : StkCallback) (now : Nat) (entry : LedgerEntry) (order : Order)
    (hfind : findTransaction db cb.checkoutRequestID = some entry)
    (hpending : entry.status = TxnStatus.pending)
    (hcode : cb.resultCode ≠ JVal.jnum 0)
    (horder : findOrder db entry.orderId = some order) :
    (mpesaCallback db (some cb) now).1 = ⟨200, some 0, "Callback received"⟩ ∧
    findTransaction (mpesaCallback db (some cb) now).2 cb.checkoutRequestID =
      some { entry with status := .failed, resultCode := some cb.resultCode, resultDesc := some cb.resultDesc, updatedAt := now } ∧
    findOrder (mpesaCallback db (some cb) now).2 entry.orderId =
      some { order with status := .failed, notes := some ((order.notes.getD "") ++ " | Payment failed: " ++ cb.resultDesc) } ∧
    (mpesaCallback db (some cb) now).2.payments = db.payments := by
  rw [mpesaCallback_found_failure db cb now entry hfind hcode]
  refine ⟨rfl, ?_, ?_, rfl⟩
  · rw [findTransaction_failWrites, hfind]
    rfl
  · rw [findOrder_failWrites, horder]
    rfl

/-- Witness for `mpesaCallback_failure_updates`: the spec's
provider-failure scenario (pending `ws_1`, cancellation code 1032) — the
order is marked failed and its notes keep the prior text and gain the
failure description. -/
theorem mpesaCallback_failure_updates_witness :
    findOrder (mpesaCallback dbHappy (some cbCancel) 11).2 ledgerWs1.orderId =
      some { order42 with status := .failed, notes := some ((order42.notes.getD "") ++ " | Payment failed: " ++ cbCancel.resultDesc) } :=
  (mpesaCallback_failure_updates dbHappy cbCancel 11 ledgerWs1 order42
    (by decide) (by decide) (by decide) (by decide)).2.2.1

/-- C8. `queryPaymentStatus` never writes: the store comes back unchanged
on every path.  On a terminal (non-pending) entry it answers from the
cached ledger fields without reaching the gateway; on a pending entry it
reaches the gateway and surfaces the query result (the raw code and
description on success, the error message on failure). -/
theorem queryPaymentStatus_readonly
    (db : DB) (checkoutRequestID : String) (qres : QuerySTKResult) (txn : LedgerEntry)
    (hcid : ¬ checkoutRequestID = "")
    (hfind : findTransaction db checkoutRequestID = some txn) :
    (queryPaymentStatus db checkoutRequestID qres).db = db ∧
    (txn.status ≠ .pending →
      queryPaymentStatus db checkoutRequestID qres =
        ⟨.cached txn.status txn.resultCode txn.resultDesc txn.mpesaReceiptNumber,
          db, false⟩) ∧
    (txn.status = .pending →
      (queryPaymentStatus db checkoutRequestID qres).gatewayCalled = true ∧
      (qres.success = true →
        (queryPaymentStatus db checkoutRequestID qres).resp =
          .live (if qres.resultCode == some "0" then "completed" else "pending")
            qres.resultCode qres.resultDesc qres.data) ∧
      (qres.success = false →
        (queryPaymentStatus db checkoutRequestID qres).resp =
          .badRequest (jsOr qres.error "Failed to query payment status"))) := by
  simp only [queryPaymentStatus, hfind]
  rw [if_neg hcid]
  by_cases hp : txn.status ≠ TxnStatus.pending
  · rw [if_pos hp]
    exact ⟨rfl, fun _ => rfl, fun h => absurd h hp⟩
  · rw [if_neg hp]
    refine ⟨?_, fun h => absurd h hp, fun _ => ⟨?_, fun hq => ?_, fun hq => ?_⟩⟩
    · by_cases hq2 : qres.success = true
      · rw [if_pos hq2]
      · rw [if_neg hq2]
    · by_cases hq2 : qres.success = true
      · rw [if_pos hq2]
      · rw [if_neg hq2]
    · rw [if_pos hq]
    · rw [if_neg (by simp [hq])]

/-- Witness for `queryPaymentStatus_readonly`: after the happy-path
callback, `ws_1` is terminal and a query answers from the cache with no
gateway call and no store change. -/
theorem queryPaymentStatus_readonly_witness :
    queryPaymentStatus dbAfterSuccess "ws_1" qresOk =
      ⟨.cached ws1Completed.status ws1Completed.resultCode ws1Completed.resultDesc
        ws1Completed.mpesaReceiptNumber, dbAfterSuccess, false⟩ :=
  (queryPaymentStatus_readonly dbAfterSuccess "ws_1" qresOk ws1Completed
    (by decide) (by decide)).2.1 (by decide)

/-- C10. With the ledger entry found, `mpesaCallback` takes its success
branch exactly when the callback's `ResultCode` is strictly the number `0`
(`===` on the dynamic value); any other value — including the string
`"0"` — takes the failure branch, which marks the ledger entry `failed`
and the order `failed`. -/
theorem mpesaCallback_strict_result_code
    (db : DB) (cb : StkCallback) (now : Nat) (entry : LedgerEntry) (order : Order)
    (hfind : findTransaction db cb.checkoutRequestID = some entry)
    (horder : findOrder db entry.orderId = some order) :
    ((mpesaCallback db (some cb) now).1 = ⟨200, some 0, "Success"⟩ ↔
      cb.resultCode = JVal.jnum 0) ∧
    (cb.resultCode ≠ JVal.jnum 0 →
      findTransaction (mpesaCallback db (some cb) now).2 cb.checkoutRequestID =
        some { entry with status := .failed, resultCode := some cb.resultCode, resultDesc := some cb.resultDesc, updatedAt := now } ∧
      findOrder (mpesaCallback db (some cb) now).2 entry.orderId =
        some { order with status := .failed, notes := some ((order.notes.getD "") ++ " | Payment failed: " ++ cb.resultDesc) }) := by
  constructor
  · by_cases hc : cb.resultCode = JVal.jnum 0
    · rw [mpesaCallback_found_success db cb now entry hfind hc]
      exact ⟨fun _ => hc, fun _ => rfl⟩
    · rw [mpesaCallback_found_failure db cb now entry hfind hc]
      constructor
      · intro h
        have h2 : ({ status := 200, resultCode := some 0, message := "Callback received" } : CallbackResp) =
            { status := 200, resultCode := some 0, message := "Success" } := h
        exact absurd h2 (by decide)
      · intro h
        exact absurd h hc
  · intro hc
    rw [mpesaCallback_found_failure db cb now entry hfind hc]
    constructor
    · rw [findTransaction_failWrites, hfind]
      rfl
    · rw [findOrder_failWrites, horder]
      rfl

/-- Witness for `mpesaCallback_strict_result_code`: a callback carrying the
string `"0"` as its result code drives the pending `ws_1` entry into the
`failed` state even though the provider meant success. -/
theorem mpesaCallback_strict_result_code_witness :
    findTransaction (mpesaCallback dbHappy (some cbStringZero) 12).2
        cbStringZero.checkoutRequestID =
      some { ledgerWs1 with status := .failed, resultCode := some cbStringZero.resultCode, resultDesc := some cbStringZero.resultDesc, updatedAt := 12 } :=
  ((mpesaCallback_strict_result_code dbHappy cbStringZero 12 ledgerWs1 order42
    (by decide) (by decide)).2 (by decide)).1
